import Mathlib

/-!
Verification of the litellm excerpt: `litellm/integrations/custom_logger.py`
(the `CustomLogger` hook base class: logging dispatch, payload truncation,
payload redaction) and `litellm/llms/groq/chat/transformation.py`
(the `GroqChatConfig` request/response transformation).

Python dictionaries, lists and scalars are embedded as the mutual inductives
`PyVal` / `PyList` / `PyDict`; a Python dict is an insertion-ordered
association list with first-occurrence lookup and in-place update, matching
CPython dict semantics.  Where object mutation matters (the redaction claim),
dict objects live in an explicit store (`Store`) and dict-valued fields hold
references (`PyVal.ref`), so that "the original object is unmodified" is
expressible.
-/

mutual

/-- A Python value: `None`, a string, an integer, a boolean, a list, an inline
dictionary, or a reference to a dictionary object held in a `Store`. -/
inductive PyVal where
  | none : PyVal
  | str (s : String) : PyVal
  | int (n : Int) : PyVal
  | bool (b : Bool) : PyVal
  | listv (xs : PyList) : PyVal
  | dictv (d : PyDict) : PyVal
  | ref (n : Nat) : PyVal

/-- A list of Python values. -/
inductive PyList where
  | nil : PyList
  | cons (v : PyVal) (t : PyList) : PyList

/-- A Python dict as an insertion-ordered association list. -/
inductive PyDict where
  | nil : PyDict
  | cons (k : String) (v : PyVal) (t : PyDict) : PyDict

end

deriving instance DecidableEq for PyVal
deriving instance DecidableEq for PyList
deriving instance DecidableEq for PyDict

namespace PyDict

/-- `d.get(k)`: the value at the first occurrence of key `k`, if any. -/
def get (d : PyDict) (k : String) : Option PyVal :=
  match d with
  | .nil => Option.none
  | .cons k' v t => if k' = k then some v else get t k

/-- `d[k] = v`: update the first occurrence of `k` in place, or append. -/
def set (d : PyDict) (k : String) (v : PyVal) : PyDict :=
  match d with
  | .nil => .cons k v .nil
  | .cons k' v' t => if k' = k then .cons k v t else .cons k' v' (set t k v)

/-- `d.pop(k, None)`: remove every binding of key `k` (a well-formed dict
has at most one). -/
def erase (d : PyDict) (k : String) : PyDict :=
  match d with
  | .nil => .nil
  | .cons k' v t => if k' = k then erase t k else .cons k' v (erase t k)

theorem get_set_self : ∀ (d : PyDict) (k : String) (v : PyVal),
    get (set d k v) k = some v
  | .nil, k, v => by simp [set, get]
  | .cons k' v' t, k, v => by
    by_cases h : k' = k <;> simp [set, get, h, get_set_self t k v]

theorem get_set_ne : ∀ (d : PyDict) (k k' : String) (v : PyVal),
    k' ≠ k → get (set d k v) k' = get d k'
  | .nil, k, k', v, h => by
    have h' : ¬ (k = k') := fun hk => h hk.symm
    simp [set, get, h']
  | .cons k₀ v₀ t, k, k', v, h => by
    have h' : ¬ (k = k') := fun hk => h hk.symm
    by_cases h₀ : k₀ = k
    · subst h₀
      simp [set, get, h']
    · simp [set, get, h₀, get_set_ne t k k' v h]

theorem get_erase_self : ∀ (d : PyDict) (k : String),
    get (erase d k) k = Option.none
  | .nil, k => by simp [erase, get]
  | .cons k' v t, k => by
    by_cases h : k' = k <;> simp [erase, get, h, get_erase_self t k]

theorem get_erase_ne : ∀ (d : PyDict) (k k' : String),
    k' ≠ k → get (erase d k) k' = get d k'
  | .nil, k, k', h => by simp [erase, get]
  | .cons k₀ v t, k, k', h => by
    by_cases h₀ : k₀ = k
    · have h' : ¬ (k₀ = k') := fun hk => h (hk.symm.trans h₀)
      have h'' : ¬ (k = k') := fun hk => h hk.symm
      simp [erase, get, h₀, h', h'', get_erase_ne t k k' h]
    · simp [erase, get, h₀, get_erase_ne t k k' h]

/-- `d.get(k)` with Python semantics: an absent key yields `None`. -/
def getv (d : PyDict) (k : String) : PyVal :=
  (get d k).getD .none

/-- The keys of a dict, in insertion order. -/
def keys : PyDict → List String
  | .nil => []
  | .cons k _ t => k :: keys t

/-- Left fold over the entries of a dict, in insertion order
(Python's `for k, v in d.items()`). -/
def foldl (f : α → String → PyVal → α) : α → PyDict → α
  | init, .nil => init
  | init, .cons k v t => foldl f (f init k v) t

theorem get_eq_none_of_not_mem_keys : ∀ (d : PyDict) (k : String),
    k ∉ keys d → get d k = Option.none
  | .nil, _, _ => rfl
  | .cons k' v t, k, h => by
    have h₁ : k' ≠ k := fun hk => h (by simp [keys, hk])
    have h₂ : k ∉ keys t := fun hk => h (by simp [keys, hk])
    simp [get, h₁, get_eq_none_of_not_mem_keys t k h₂]

theorem get_eq_some_of_mem_keys : ∀ (d : PyDict) (k : String),
    k ∈ keys d → ∃ v, get d k = some v
  | .cons k' v t, k, h => by
    by_cases h₁ : k' = k
    · exact ⟨v, by simp [get, h₁]⟩
    · have h₂ : k ∈ keys t := by
        rcases (by simpa [keys] using h : k = k' ∨ k ∈ keys t) with h' | h'
        · exact absurd h'.symm h₁
        · exact h'
      obtain ⟨w, hw⟩ := get_eq_some_of_mem_keys t k h₂
      exact ⟨w, by simp [get, h₁, hw]⟩

/-- Folding `acc[k] := v` over the entries of a dict while skipping `None`
values (the assistant-message rebuild): over distinct keys, each non-`None`
entry of `d` ends bound to its value, a `None` entry and an absent key keep
their binding from `acc`. -/
theorem get_foldl_skipNone_set : ∀ (d : PyDict) (acc : PyDict) (k : String),
    (keys d).Nodup →
    get (foldl (fun acc k v => if v == PyVal.none then acc else acc.set k v) acc d) k =
      match get d k with
      | some v => if v == PyVal.none then get acc k else some v
      | Option.none => get acc k
  | .nil, acc, k, _ => by simp [foldl, get]
  | .cons k₀ v₀ t, acc, k, hnd => by
    have hnd' : (keys t).Nodup := by
      simpa [keys] using hnd.of_cons
    have hnotmem : k₀ ∉ keys t := by
      simpa [keys] using (List.nodup_cons.mp (by simpa [keys] using hnd)).1
    by_cases hk : k₀ = k
    · subst hk
      have ht : get t k₀ = Option.none := get_eq_none_of_not_mem_keys t k₀ hnotmem
      rw [foldl]
      rw [get_foldl_skipNone_set t _ k₀ hnd']
      by_cases hv : v₀ == PyVal.none
      · simp [get, ht, hv]
      · simp [get, ht, hv, get_set_self]
    · rw [foldl]
      rw [get_foldl_skipNone_set t _ k hnd']
      by_cases hv : v₀ == PyVal.none
      · simp [get, hk, hv]
      · simp [get, hk, hv, get_set_ne _ _ _ _ (fun h => hk h.symm)]

/-- Folding `acc[k] := v` over the entries of a dict (the spec-modelled base
parameter merge) leaves every key not bound in `d` at its binding in `acc`. -/
theorem get_foldl_set_of_get_none : ∀ (d : PyDict) (acc : PyDict) (k : String),
    get d k = Option.none →
    get (foldl (fun acc k v => acc.set k v) acc d) k = get acc k
  | .nil, _, _, _ => by simp [foldl]
  | .cons k₀ v₀ t, acc, k, h => by
    have hk : ¬ (k₀ = k) := by
      intro hk
      simp [get, hk] at h
    have ht : get t k = Option.none := by
      simpa [get, hk] using h
    rw [foldl]
    rw [get_foldl_set_of_get_none t _ k ht]
    exact get_set_ne _ _ _ _ (fun h' => hk h'.symm)

end PyDict

/-- Python truthiness of a value (`if field_value:`). -/
def PyVal.truthy : PyVal → Bool
  | .none => false
  | .str s => s != ""
  | .int n => n != 0
  | .bool b => b
  | .listv .nil => false
  | .listv (.cons _ _) => true
  | .dictv .nil => false
  | .dictv (.cons _ _ _) => true
  | .ref _ => true

mutual

/-- Python `repr` of a value, as used inside `str` of containers. -/
def PyVal.pyRepr : PyVal → String
  | .none => "None"
  | .str s => "'" ++ s ++ "'"
  | .int n => toString n
  | .bool b => if b then "True" else "False"
  | .listv xs => "[" ++ PyList.pyReprItems xs ++ "]"
  | .dictv d => "\x7b" ++ PyDict.pyReprItems d ++ "\x7d"
  | .ref n => "<dict at " ++ toString n ++ ">"

/-- Comma-separated reprs of the items of a list. -/
def PyList.pyReprItems : PyList → String
  | .nil => ""
  | .cons v t =>
    match t with
    | .nil => v.pyRepr
    | .cons _ _ => v.pyRepr ++ ", " ++ PyList.pyReprItems t

/-- Comma-separated `'key': repr(value)` entries of a dict. -/
def PyDict.pyReprItems : PyDict → String
  | .nil => ""
  | .cons k v t =>
    match t with
    | .nil => "'" ++ k ++ "': " ++ v.pyRepr
    | .cons _ _ _ => "'" ++ k ++ "': " ++ v.pyRepr ++ ", " ++ PyDict.pyReprItems t

end

/-- Python `str()` of a value: a string renders as itself, anything else as
its repr. -/
def PyVal.pyStr : PyVal → String
  | .str s => s
  | v => v.pyRepr

/-! ## `CustomLogger` (litellm/integrations/custom_logger.py) -/

namespace CustomLogger

/-- The observable behaviour of one call to a logging dispatch helper:
whether the helper itself returned normally or raised, how many times the
user callback was invoked, the kwargs object after the call (the helper
mutates it in place), and the diagnostic line passed to `print_verbose`
on a callback failure. -/
structure LogDispatchResult where
  outcome : Except String Unit
  attempts : Nat
  kwargs : PyDict
  diagnostic : Option String

/-- `CustomLogger.log_event`: sets `kwargs["log_event_type"]`, invokes the
user callback once inside `try`, and reports any callback exception through
`print_verbose` instead of re-raising. -/
def log_event (callback_func : PyDict → PyVal → PyVal → PyVal → Except String Unit)
    (kwargs : PyDict) (response_obj start_time end_time : PyVal) :
    LogDispatchResult :=
  let kwargs1 := kwargs.set "log_event_type" (.str "post_api_call")
  match callback_func kwargs1 response_obj start_time end_time with
  | .ok _ => ⟨.ok (), 1, kwargs1, Option.none⟩
  | .error e => ⟨.ok (), 1, kwargs1, some ("Custom Logger Error - " ++ e)⟩

/-- `CustomLogger.async_log_event`: identical to `log_event` but awaiting the
callback; the awaited callback's exception is likewise caught. -/
def async_log_event (callback_func : PyDict → PyVal → PyVal → PyVal → Except String Unit)
    (kwargs : PyDict) (response_obj start_time end_time : PyVal) :
    LogDispatchResult :=
  let kwargs1 := kwargs.set "log_event_type" (.str "post_api_call")
  match callback_func kwargs1 response_obj start_time end_time with
  | .ok _ => ⟨.ok (), 1, kwargs1, Option.none⟩
  | .error e => ⟨.ok (), 1, kwargs1, some ("Custom Logger Error - " ++ e)⟩

/-- `MAX_STR_LENGTH` in `truncate_standard_logging_payload_content`. -/
def MAX_STR_LENGTH : Nat := 10000

/-- The fixed truncation marker appended by `_truncate_text`. -/
def truncationSuffix : String :=
  "...truncated by litellm, this logger does not support large content"

/-- `CustomLogger._truncate_text`. -/
def _truncate_text (text : String) (max_length : Nat) : String :=
  if text.length > max_length then text.take max_length ++ truncationSuffix
  else text

/-- `CustomLogger._truncate_field`: read the field (`None` when absent),
skip falsy values, stringify, and replace the field by the truncated string
only when the rendering exceeds `max_length`. -/
def _truncate_field (standard_logging_object : PyDict) (field_name : String)
    (max_length : Nat) : PyDict :=
  let field_value := standard_logging_object.getv field_name
  if field_value.truthy then
    let str_value := field_value.pyStr
    if str_value.length > max_length then
      standard_logging_object.set field_name (.str (_truncate_text str_value max_length))
    else standard_logging_object
  else standard_logging_object

/-- `CustomLogger.truncate_standard_logging_payload_content`: truncate the
fields `error_str`, `messages`, `response`. -/
def truncate_standard_logging_payload_content (standard_logging_object : PyDict) :
    PyDict :=
  ["error_str", "messages", "response"].foldl
    (fun acc field => _truncate_field acc field MAX_STR_LENGTH)
    standard_logging_object

/-- `CustomLogger.async_dataset_hook`: the default implementation raises
`NotImplementedError` — it never returns, not even `None`. -/
def async_dataset_hook (logged_item : PyDict)
    (standard_logging_payload : Option PyDict) : Except String (Option PyDict) :=
  .error "async_dataset_hook not implemented"

/-- `CustomLogger.get_chat_completion_prompt`: the default returns its
`(model, messages, non_default_params)` arguments unchanged. -/
def get_chat_completion_prompt (model : String) (messages : List PyDict)
    (non_default_params : PyDict) (prompt_id : Option String)
    (prompt_variables : Option PyDict) (dynamic_callback_params : PyDict)
    (prompt_label : Option String) (prompt_version : Option Int) :
    String × List PyDict × PyDict :=
  (model, messages, non_default_params)

/-- `CustomLogger.async_get_chat_completion_prompt`: the default returns its
`(model, messages, non_default_params)` arguments unchanged. -/
def async_get_chat_completion_prompt (model : String) (messages : List PyDict)
    (non_default_params : PyDict) (prompt_id : Option String)
    (prompt_variables : Option PyDict) (dynamic_callback_params : PyDict)
    (litellm_logging_obj : PyDict) (tools : Option (List PyDict))
    (prompt_label : Option String) (prompt_version : Option Int) :
    String × List PyDict × PyDict :=
  (model, messages, non_default_params)

end CustomLogger

/-! ## Redaction (`redact_standard_logging_payload_from_model_call_details`)

Dict objects subject to mutation live in a `Store`; a reference into the
store is a `PyVal.ref`.  `copy.copy` allocates a fresh slot holding the same
association list (a shallow copy: nested references are shared). -/

/-- A heap of dict objects; a reference is an index into the list. -/
abbrev Store := List PyDict

/-- Dereference: the dict object at slot `r` (meaningful for `r < σ.length`). -/
def storeGet (σ : Store) (r : Nat) : PyDict :=
  σ.getD r .nil

/-- In-place `obj[k] = v` on the dict object at slot `r`. -/
def storeSetKey (σ : Store) (r : Nat) (k : String) (v : PyVal) : Store :=
  σ.set r ((storeGet σ r).set k v)

namespace CustomLogger

/-- Modelled from the spec: the shared placeholder string
`LiteLLMCommonStrings.redacted_by_litellm.value` (defined outside the
excerpt) — "always substitutes a fixed placeholder string". -/
def redacted_str : String := "redacted-by-litellm"

/-- Modelled from the spec: `[Message(content=redacted_str).model_dump()]`
(the `Message` pydantic model is outside the excerpt) — "replace any present
`messages` value with a single redacted placeholder message". -/
def redactedMessagesValue : PyVal :=
  .listv (.cons
    (.dictv (.cons "content" (.str redacted_str)
      (.cons "role" (.str "assistant") .nil)))
    .nil)

/-- Modelled from the spec:
`ModelResponse(choices=[Choices(message=Message(content=redacted_str))]).model_dump()`
(the `ModelResponse` pydantic model is outside the excerpt) — "a minimal
response structure whose content is the same placeholder string". -/
def redactedResponseValue : PyVal :=
  .dictv (.cons "choices"
    (.listv (.cons
      (.dictv (.cons "message"
        (.dictv (.cons "content" (.str redacted_str)
          (.cons "role" (.str "assistant") .nil)))
        .nil))
      .nil))
    .nil)

/-- `CustomLogger.redact_standard_logging_payload_from_model_call_details`.
`model_call_details` is a reference into the store; the result is the
(possibly fresh) reference the function returns together with the store
after the call.  `Option.none` models an uncaught exception (the nested
`standard_logging_object` being neither absent, `None`, nor a dict). -/
def redact_standard_logging_payload_from_model_call_details
    (turn_off_message_logging : Bool) (σ : Store) (model_call_details : Nat) :
    Option (Store × Nat) :=
  if turn_off_message_logging = false then some (σ, model_call_details)
  else
    let top := storeGet σ model_call_details
    let rc := σ.length
    let σ₁ := σ ++ [top]
    match top.get "standard_logging_object" with
    | Option.none => some (σ₁, rc)
    | some PyVal.none => some (σ₁, rc)
    | some (PyVal.ref s) =>
        let sc := σ₁.length
        let σ₂ := σ₁ ++ [storeGet σ s]
        let σ₃ :=
          if (storeGet σ₂ sc).getv "messages" ≠ PyVal.none then
            storeSetKey σ₂ sc "messages" redactedMessagesValue
          else σ₂
        let σ₄ :=
          if (storeGet σ₃ sc).getv "response" ≠ PyVal.none then
            storeSetKey σ₃ sc "response" redactedResponseValue
          else σ₃
        some (storeSetKey σ₄ rc "standard_logging_object" (PyVal.ref sc), rc)
    | some _ => Option.none

end CustomLogger

/-! ## `GroqChatConfig` (litellm/llms/groq/chat/transformation.py) -/

namespace GroqChatConfig

/-- The class-level attributes of `GroqChatConfig` (one slot per constructor
parameter).  `__init__` writes through `setattr(self.__class__, ...)`, so
these are shared by every instance of the class. -/
structure ClassState where
  frequency_penalty : Option PyVal
  function_call : Option PyVal
  functions : Option PyVal
  logit_bias : Option PyVal
  max_tokens : Option PyVal
  n : Option PyVal
  presence_penalty : Option PyVal
  stop : Option PyVal
  temperature : Option PyVal
  top_p : Option PyVal
  response_format : Option PyVal
  tools : Option PyVal
  tool_choice : Option PyVal
deriving DecidableEq

/-- `if value is not None: setattr(self.__class__, key, value)` for one
attribute: a non-`None` argument overwrites the class-level slot. -/
def updAttr (arg current : Option PyVal) : Option PyVal :=
  match arg with
  | some v => some v
  | Option.none => current

/-- `GroqChatConfig.__init__`: every non-`None` constructor argument is
written to the class (not the instance), so it becomes visible to all
instances; `None` arguments leave the class slot as it was. -/
def init (cls : ClassState) (args : ClassState) : ClassState where
  frequency_penalty := updAttr args.frequency_penalty cls.frequency_penalty
  function_call := updAttr args.function_call cls.function_call
  functions := updAttr args.functions cls.functions
  logit_bias := updAttr args.logit_bias cls.logit_bias
  max_tokens := updAttr args.max_tokens cls.max_tokens
  n := updAttr args.n cls.n
  presence_penalty := updAttr args.presence_penalty cls.presence_penalty
  stop := updAttr args.stop cls.stop
  temperature := updAttr args.temperature cls.temperature
  top_p := updAttr args.top_p cls.top_p
  response_format := updAttr args.response_format cls.response_format
  tools := updAttr args.tools cls.tools
  tool_choice := updAttr args.tool_choice cls.tool_choice

/-- `GroqChatConfig._should_fake_stream`: true iff the params hold a
non-`None` `response_format` ("Groq doesn't support 'response_format' while
streaming", so no model/mode check is made). -/
def _should_fake_stream (optional_params : PyDict) : Bool :=
  optional_params.getv "response_format" != PyVal.none

/-- `GroqChatConfig._create_json_tool_call_for_response_format`: a single
function tool named `json_tool_call` whose parameters are the JSON schema. -/
def _create_json_tool_call_for_response_format (json_schema : PyVal) : PyVal :=
  .dictv (.cons "type" (.str "function")
    (.cons "function"
      (.dictv (.cons "name" (.str "json_tool_call")
        (.cons "parameters" json_schema .nil)))
      .nil))

/-- The forced `tool_choice` built in `map_openai_params`. -/
def jsonToolChoice : PyVal :=
  .dictv (.cons "type" (.str "function")
    (.cons "function" (.dictv (.cons "name" (.str "json_tool_call") .nil)) .nil))

/-- The JSON-schema extraction inside `map_openai_params`:
`response_format["response_schema"]` when that key is present, else
`response_format["json_schema"]["schema"]` when `json_schema` is present
(a `KeyError`/`TypeError` — modelled as `.error` — when the inner subscript
fails), else `None`. -/
def extractJsonSchema (response_format : PyDict) : Except String PyVal :=
  match response_format.get "response_schema" with
  | some v => .ok v
  | Option.none =>
    match response_format.get "json_schema" with
    | some (.dictv js) =>
      match js.get "schema" with
      | some s => .ok s
      | Option.none => .error "KeyError: schema"
    | some _ => .error "TypeError: value of json_schema is not subscriptable"
    | Option.none => .ok PyVal.none

/-- Modelled from the spec: the generic base `map_openai_params` of
`OpenAILikeChatConfig` (outside the excerpt) — "Delegate all other parameter
mapping to the generic base transform": each remaining canonical parameter
is merged into the provider parameter dict. -/
def base_map_openai_params (non_default_params optional_params : PyDict)
    (model : String) (drop_params : Bool) : PyDict :=
  non_default_params.foldl (fun acc k v => acc.set k v) optional_params

/-- `GroqChatConfig.map_openai_params`.  Returns the resulting
`optional_params` together with the caller's `non_default_params` object as
it stands after the call (the function pops `response_format` from it when a
JSON schema is handled).  `.error` models an uncaught exception from the
inner schema subscripts. -/
def map_openai_params (non_default_params optional_params : PyDict)
    (model : String) (drop_params : Bool) : Except String (PyDict × PyDict) :=
  let op₁ :=
    if _should_fake_stream non_default_params then
      optional_params.set "fake_stream" (.bool true)
    else optional_params
  match non_default_params.getv "response_format" with
  | .dictv rf =>
    match extractJsonSchema rf with
    | .error e => .error e
    | .ok json_schema =>
      if json_schema ≠ PyVal.none then
        let tool := _create_json_tool_call_for_response_format json_schema
        let op₂ := ((op₁.set "tools" (.listv (.cons tool .nil))).set
            "tool_choice" jsonToolChoice).set "json_mode" (.bool true)
        let ndp₂ := non_default_params.erase "response_format"
        .ok (base_map_openai_params ndp₂ op₂ model drop_params, ndp₂)
      else
        .ok (base_map_openai_params non_default_params op₁ model drop_params,
          non_default_params)
  | _ =>
    .ok (base_map_openai_params non_default_params op₁ model drop_params,
      non_default_params)

/-- The per-message body of the loop in `GroqChatConfig._transform_messages`:
an assistant message is rebuilt from `ChatCompletionAssistantMessage(role="assistant")`
keeping only its non-`None` entries; any other message is left alone. -/
def normalize_message (message : PyDict) : PyDict :=
  if message.get "role" = some (.str "assistant") then
    message.foldl
      (fun acc k v => if v == PyVal.none then acc else acc.set k v)
      (.cons "role" (.str "assistant") .nil)
  else message

/-- Modelled from the spec: the base `_transform_messages` of
`OpenAILikeChatConfig` (outside the excerpt) — beyond the assistant
normalization, "all other roles pass through unchanged" and the sync and
async conventions yield the same messages. -/
def base_transform_messages (messages : List PyDict) (model : String)
    (is_async : Bool) : List PyDict :=
  messages

/-- `GroqChatConfig._transform_messages`: normalize each assistant message in
place, then delegate to the base class with the same `is_async` convention. -/
def _transform_messages (messages : List PyDict) (model : String)
    (is_async : Bool) : List PyDict :=
  let messages₁ := messages.map normalize_message
  if is_async then base_transform_messages messages₁ model true
  else base_transform_messages messages₁ model false

/-- `GroqChatConfig._map_groq_service_tier`: `None` and anything outside
`["auto", "default", "flex"]` map to `"auto"`; the three members pass
through. -/
def _map_groq_service_tier (original_service_tier : Option String) : String :=
  match original_service_tier with
  | Option.none => "auto"
  | some s => if s = "auto" ∨ s = "default" ∨ s = "flex" then s else "auto"

/-- A canonical response as `transform_response` sees it after the base
class's parsing: the `service_tier` attribute plus the rest of the object,
which the Groq override does not touch. -/
structure ModelResponseShape where
  service_tier : Option String
  rest : PyDict
deriving DecidableEq

/-- The Groq-specific tail of `GroqChatConfig.transform_response`: the base
class (outside the excerpt) has produced `model_response`; the override then
overwrites `service_tier` with its normalization. -/
def transform_response_tail (model_response : ModelResponseShape) :
    ModelResponseShape :=
  { model_response with
    service_tier := some (_map_groq_service_tier model_response.service_tier) }

end GroqChatConfig

/-! ## Claim theorems -/

/-- C1: for every callback supplied to `log_event` / `async_log_event`, if
the callback raises, the helper returns normally (no exception escapes) and
the callback has been attempted exactly once. -/
theorem log_event_isolates_callback_failure :
    ∀ (callback_func : PyDict → PyVal → PyVal → PyVal → Except String Unit)
      (kwargs : PyDict) (response_obj start_time end_time : PyVal) (e : String),
      (callback_func (kwargs.set "log_event_type" (.str "post_api_call"))
          response_obj start_time end_time = .error e →
        (CustomLogger.log_event callback_func kwargs response_obj start_time
            end_time).outcome = .ok ()
        ∧ (CustomLogger.log_event callback_func kwargs response_obj start_time
            end_time).attempts = 1)
      ∧ (callback_func (kwargs.set "log_event_type" (.str "post_api_call"))
          response_obj start_time end_time = .error e →
        (CustomLogger.async_log_event callback_func kwargs response_obj
            start_time end_time).outcome = .ok ()
        ∧ (CustomLogger.async_log_event callback_func kwargs response_obj
            start_time end_time).attempts = 1) := by
  intro cb kwargs r s t e
  constructor
  · intro h
    simp [CustomLogger.log_event, h]
  · intro h
    simp [CustomLogger.async_log_event, h]

/-- Witness for C1: a callback that always raises is attempted once and the
helpers return normally. -/
theorem log_event_isolates_callback_failure_witness :
    (CustomLogger.log_event (fun _ _ _ _ => .error "boom") PyDict.nil
        PyVal.none PyVal.none PyVal.none).outcome = .ok ()
    ∧ (CustomLogger.log_event (fun _ _ _ _ => .error "boom") PyDict.nil
        PyVal.none PyVal.none PyVal.none).attempts = 1
    ∧ (CustomLogger.async_log_event (fun _ _ _ _ => .error "boom") PyDict.nil
        PyVal.none PyVal.none PyVal.none).outcome = .ok ()
    ∧ (CustomLogger.async_log_event (fun _ _ _ _ => .error "boom") PyDict.nil
        PyVal.none PyVal.none PyVal.none).attempts = 1 := by
  have h := log_event_isolates_callback_failure (fun _ _ _ _ => .error "boom")
    PyDict.nil PyVal.none PyVal.none PyVal.none "boom"
  exact ⟨(h.1 rfl).1, (h.1 rfl).2, (h.2 rfl).1, (h.2 rfl).2⟩

/-- C10: the default `async_dataset_hook` raises `NotImplementedError` for
every input — an outcome distinguishable from returning `None` (or any other
item). -/
theorem async_dataset_hook_default_raises :
    ∀ (logged_item : PyDict) (standard_logging_payload : Option PyDict),
      CustomLogger.async_dataset_hook logged_item standard_logging_payload =
        .error "async_dataset_hook not implemented"
      ∧ ∀ r : Option PyDict,
          CustomLogger.async_dataset_hook logged_item standard_logging_payload ≠
            .ok r := by
  intro item slp
  exact ⟨rfl, fun r h => by cases h⟩

/-- Witness for C10: at a concrete input the hook raises and in particular
does not return `None`. -/
theorem async_dataset_hook_default_raises_witness :
    CustomLogger.async_dataset_hook PyDict.nil Option.none =
      .error "async_dataset_hook not implemented"
    ∧ CustomLogger.async_dataset_hook PyDict.nil Option.none ≠
      .ok Option.none := by
  have h := async_dataset_hook_default_raises PyDict.nil Option.none
  exact ⟨h.1, h.2 Option.none⟩

/-- C9: each synchronous hook agrees with its asynchronous counterpart:
`_transform_messages` performs the same normalization for `is_async = True`
and `is_async = False`, and `get_chat_completion_prompt` /
`async_get_chat_completion_prompt` both return `(model, messages,
non_default_params)` unchanged. -/
theorem sync_async_hooks_agree :
    (∀ (messages : List PyDict) (model : String),
      GroqChatConfig._transform_messages messages model true =
        GroqChatConfig._transform_messages messages model false)
    ∧ (∀ (model : String) (messages : List PyDict) (non_default_params : PyDict)
        (prompt_id : Option String) (prompt_variables : Option PyDict)
        (dynamic_callback_params : PyDict) (prompt_label : Option String)
        (prompt_version : Option Int),
      CustomLogger.get_chat_completion_prompt model messages non_default_params
          prompt_id prompt_variables dynamic_callback_params prompt_label
          prompt_version =
        (model, messages, non_default_params))
    ∧ (∀ (model : String) (messages : List PyDict) (non_default_params : PyDict)
        (prompt_id : Option String) (prompt_variables : Option PyDict)
        (dynamic_callback_params litellm_logging_obj : PyDict)
        (tools : Option (List PyDict)) (prompt_label : Option String)
        (prompt_version : Option Int),
      CustomLogger.async_get_chat_completion_prompt model messages
          non_default_params prompt_id prompt_variables dynamic_callback_params
          litellm_logging_obj tools prompt_label prompt_version =
        (model, messages, non_default_params)) :=
  ⟨fun _ _ => rfl, fun _ _ _ _ _ _ _ _ => rfl, fun _ _ _ _ _ _ _ _ _ _ => rfl⟩

/-- C7: the service-tier normalization of `transform_response` maps `"auto"`,
`"default"`, `"flex"` to themselves and `None` or any other string to
`"auto"`, so the response's `service_tier` always lands in the fixed
enumeration. -/
theorem service_tier_always_normalized :
    GroqChatConfig._map_groq_service_tier Option.none = "auto"
    ∧ GroqChatConfig._map_groq_service_tier (some "auto") = "auto"
    ∧ GroqChatConfig._map_groq_service_tier (some "default") = "default"
    ∧ GroqChatConfig._map_groq_service_tier (some "flex") = "flex"
    ∧ (∀ s : String, s ≠ "auto" → s ≠ "default" → s ≠ "flex" →
        GroqChatConfig._map_groq_service_tier (some s) = "auto")
    ∧ (∀ r : GroqChatConfig.ModelResponseShape,
        (GroqChatConfig.transform_response_tail r).service_tier =
          some (GroqChatConfig._map_groq_service_tier r.service_tier)
        ∧ ((GroqChatConfig.transform_response_tail r).service_tier = some "auto"
          ∨ (GroqChatConfig.transform_response_tail r).service_tier = some "default"
          ∨ (GroqChatConfig.transform_response_tail r).service_tier = some "flex")
        ∧ (GroqChatConfig.transform_response_tail r).rest = r.rest) := by
  refine ⟨rfl, rfl, rfl, rfl, ?_, ?_⟩
  · intro s h₁ h₂ h₃
    simp [GroqChatConfig._map_groq_service_tier, h₁, h₂, h₃]
  · intro r
    refine ⟨rfl, ?_, rfl⟩
    cases hr : r.service_tier with
    | none =>
      simp [GroqChatConfig.transform_response_tail,
        GroqChatConfig._map_groq_service_tier, hr]
    | some s =>
      by_cases h : s = "auto" ∨ s = "default" ∨ s = "flex"
      · rcases h with h | h | h <;>
          simp [GroqChatConfig.transform_response_tail,
            GroqChatConfig._map_groq_service_tier, hr, h]
      · simp [GroqChatConfig.transform_response_tail,
          GroqChatConfig._map_groq_service_tier, hr, h]

/-- Witness for C7: the out-of-enumeration value `"unknown"` maps to
`"auto"`. -/
theorem service_tier_always_normalized_witness :
    GroqChatConfig._map_groq_service_tier (some "unknown") = "auto" :=
  service_tier_always_normalized.2.2.2.2.1 "unknown" (by decide) (by decide)
    (by decide)

/-- The per-assistant-message behaviour of `normalize_message`: over a dict
with distinct keys whose role is `"assistant"`, every `None`-valued key is
dropped and every other binding is kept. -/
theorem normalize_message_assistant_get :
    ∀ (m : PyDict), (m.keys).Nodup →
      m.get "role" = some (.str "assistant") →
      ∀ k, (GroqChatConfig.normalize_message m).get k =
        match m.get k with
        | some PyVal.none => Option.none
        | x => x := by
  intro m hnd hrole k
  have hstep :
      (GroqChatConfig.normalize_message m).get k =
        match m.get k with
        | some v => if v == PyVal.none then
            (PyDict.cons "role" (.str "assistant") .nil).get k
          else some v
        | Option.none => (PyDict.cons "role" (.str "assistant") .nil).get k := by
    rw [GroqChatConfig.normalize_message, if_pos hrole]
    exact PyDict.get_foldl_skipNone_set m _ k hnd
  by_cases hk : k = "role"
  · subst hk
    rw [hstep, hrole]
    simp
  · have hk' : ¬ ("role" = k) := fun h => hk h.symm
    rw [hstep]
    cases hm : m.get k with
    | none => simp [PyDict.get, hk']
    | some v => cases v <;> simp [PyDict.get, hk']

/-- C6: `_transform_messages` rebuilds each assistant message without its
`None`-valued keys and passes every other message through unchanged,
`None`-valued keys included; in particular
`{role: "assistant", content: "hi", function_call: None}` becomes
`{role: "assistant", content: "hi"}` while
`{role: "user", content: "hi", foo: None}` is returned unmodified. -/
theorem transform_messages_drops_assistant_null_keys :
    (∀ (messages : List PyDict) (model : String),
      GroqChatConfig._transform_messages messages model false =
        messages.map GroqChatConfig.normalize_message)
    ∧ (∀ (m : PyDict), (m.keys).Nodup →
        m.get "role" = some (.str "assistant") →
        ∀ k, (GroqChatConfig.normalize_message m).get k =
          match m.get k with
          | some PyVal.none => Option.none
          | x => x)
    ∧ (∀ (m : PyDict), m.get "role" ≠ some (.str "assistant") →
        GroqChatConfig.normalize_message m = m)
    ∧ GroqChatConfig._transform_messages
        [.cons "role" (.str "assistant") (.cons "content" (.str "hi")
          (.cons "function_call" PyVal.none .nil)),
         .cons "role" (.str "user") (.cons "content" (.str "hi")
          (.cons "foo" PyVal.none .nil))]
        "llama-3.3-70b-versatile" false =
        [.cons "role" (.str "assistant") (.cons "content" (.str "hi") .nil),
         .cons "role" (.str "user") (.cons "content" (.str "hi")
          (.cons "foo" PyVal.none .nil))] := by
  refine ⟨fun _ _ => rfl, normalize_message_assistant_get, ?_, by decide⟩
  intro m h
  simp [GroqChatConfig.normalize_message, h]

/-- Witness for C6: on the claim's assistant message the `function_call: None`
entry is dropped while `content` is kept. -/
theorem transform_messages_drops_assistant_null_keys_witness :
    (GroqChatConfig.normalize_message
      (.cons "role" (.str "assistant") (.cons "content" (.str "hi")
        (.cons "function_call" PyVal.none .nil)))).get "function_call" =
      Option.none
    ∧ (GroqChatConfig.normalize_message
      (.cons "role" (.str "assistant") (.cons "content" (.str "hi")
        (.cons "function_call" PyVal.none .nil)))).get "content" =
      some (.str "hi") := by
  have h := transform_messages_drops_assistant_null_keys.2.1
    (.cons "role" (.str "assistant") (.cons "content" (.str "hi")
      (.cons "function_call" PyVal.none .nil)))
    (by decide) (by decide)
  exact ⟨by simpa using h "function_call", by simpa using h "content"⟩

/-- `_truncate_field` on its own field: a present truthy value whose
rendering exceeds the limit is replaced by the truncated rendering plus the
marker; anything else is untouched. -/
theorem truncate_field_get_self :
    ∀ (slo : PyDict) (f : String) (m : Nat),
      (CustomLogger._truncate_field slo f m).get f =
        (slo.get f).map (fun v =>
          if v.truthy ∧ v.pyStr.length > m then
            .str (v.pyStr.take m ++ CustomLogger.truncationSuffix)
          else v) := by
  intro slo f m
  cases hv : slo.get f with
  | none =>
    simp [CustomLogger._truncate_field, PyDict.getv, hv, PyVal.truthy]
  | some v =>
    by_cases ht : v.truthy
    · by_cases hl : v.pyStr.length > m
      · simp [CustomLogger._truncate_field, CustomLogger._truncate_text,
          PyDict.getv, hv, ht, hl, PyDict.get_set_self]
      · simp [CustomLogger._truncate_field, PyDict.getv, hv, ht, hl]
    · simp [CustomLogger._truncate_field, PyDict.getv, hv, ht]

/-- `_truncate_field` leaves every other field untouched. -/
theorem truncate_field_get_ne :
    ∀ (slo : PyDict) (f k : String) (m : Nat), k ≠ f →
      (CustomLogger._truncate_field slo f m).get k = slo.get k := by
  intro slo f k m hk
  by_cases ht : (slo.getv f).truthy
  · by_cases hl : (slo.getv f).pyStr.length > m
    · simp [CustomLogger._truncate_field, ht, hl, PyDict.get_set_ne _ _ _ _ hk]
    · simp [CustomLogger._truncate_field, ht, hl]
  · simp [CustomLogger._truncate_field, ht]

/-- C3: `truncate_standard_logging_payload_content` replaces each of
`error_str`, `messages`, `response` whose present, truthy value renders to
more than 10000 characters with the first 10000 characters of that
rendering followed by the fixed marker, leaves such a field unchanged when
its rendering is at or under the limit, and leaves every other field
unchanged. -/
theorem truncate_payload_content_spec :
    CustomLogger.MAX_STR_LENGTH = 10000
    ∧ CustomLogger.truncationSuffix =
        "...truncated by litellm, this logger does not support large content"
    ∧ ∀ slo : PyDict,
      ((CustomLogger.truncate_standard_logging_payload_content slo).get "error_str" =
        (slo.get "error_str").map (fun v =>
          if v.truthy ∧ v.pyStr.length > 10000 then
            .str (v.pyStr.take 10000 ++ CustomLogger.truncationSuffix)
          else v))
      ∧ ((CustomLogger.truncate_standard_logging_payload_content slo).get "messages" =
        (slo.get "messages").map (fun v =>
          if v.truthy ∧ v.pyStr.length > 10000 then
            .str (v.pyStr.take 10000 ++ CustomLogger.truncationSuffix)
          else v))
      ∧ ((CustomLogger.truncate_standard_logging_payload_content slo).get "response" =
        (slo.get "response").map (fun v =>
          if v.truthy ∧ v.pyStr.length > 10000 then
            .str (v.pyStr.take 10000 ++ CustomLogger.truncationSuffix)
          else v))
      ∧ ∀ k, k ≠ "error_str" → k ≠ "messages" → k ≠ "response" →
          (CustomLogger.truncate_standard_logging_payload_content slo).get k =
            slo.get k := by
  refine ⟨rfl, rfl, ?_⟩
  intro slo
  have hred : CustomLogger.truncate_standard_logging_payload_content slo =
      CustomLogger._truncate_field
        (CustomLogger._truncate_field
          (CustomLogger._truncate_field slo "error_str" CustomLogger.MAX_STR_LENGTH)
          "messages" CustomLogger.MAX_STR_LENGTH)
        "response" CustomLogger.MAX_STR_LENGTH := rfl
  have hM : CustomLogger.MAX_STR_LENGTH = 10000 := rfl
  refine ⟨?_, ?_, ?_, ?_⟩
  · rw [hred, truncate_field_get_ne _ _ _ _ (by decide),
      truncate_field_get_ne _ _ _ _ (by decide), truncate_field_get_self, hM]
  · rw [hred, truncate_field_get_ne _ _ _ _ (by decide),
      truncate_field_get_self, truncate_field_get_ne _ _ _ _ (by decide), hM]
  · rw [hred, truncate_field_get_self,
      truncate_field_get_ne _ _ _ _ (by decide),
      truncate_field_get_ne _ _ _ _ (by decide), hM]
  · intro k h₁ h₂ h₃
    rw [hred, truncate_field_get_ne _ _ _ _ h₃, truncate_field_get_ne _ _ _ _ h₂,
      truncate_field_get_ne _ _ _ _ h₁]

/-- Witness for C3: a field outside the truncation set is untouched. -/
theorem truncate_payload_content_spec_witness :
    (CustomLogger.truncate_standard_logging_payload_content
      (.cons "model" (.str "llama-3.3-70b-versatile") .nil)).get "model" =
      some (.str "llama-3.3-70b-versatile") := by
  have h := (truncate_payload_content_spec.2.2
    (.cons "model" (.str "llama-3.3-70b-versatile") .nil)).2.2.2
    "model" (by decide) (by decide) (by decide)
  simpa using h

/-- C5: on `{response_format: {json_schema: {schema: {type: "object"}}}}`,
`map_openai_params` sets `json_mode = True`, forces
`tool_choice = {"type": "function", "function": {"name": "json_tool_call"}}`,
produces a single function tool named `json_tool_call` whose parameters are
`{type: "object"}`, and removes `response_format` (it is popped from
`non_default_params` and never placed in the output). -/
theorem map_openai_params_json_schema_case :
    ∃ optional_params : PyDict,
      GroqChatConfig.map_openai_params
        (.cons "response_format"
          (.dictv (.cons "json_schema"
            (.dictv (.cons "schema"
              (.dictv (.cons "type" (.str "object") .nil)) .nil)) .nil))
          .nil)
        .nil "llama-3.3-70b-versatile" false =
        .ok (optional_params, .nil)
      ∧ optional_params.get "json_mode" = some (.bool true)
      ∧ optional_params.get "tool_choice" =
          some (.dictv (.cons "type" (.str "function")
            (.cons "function"
              (.dictv (.cons "name" (.str "json_tool_call") .nil)) .nil)))
      ∧ optional_params.get "tools" =
          some (.listv (.cons
            (.dictv (.cons "type" (.str "function")
              (.cons "function"
                (.dictv (.cons "name" (.str "json_tool_call")
                  (.cons "parameters"
                    (.dictv (.cons "type" (.str "object") .nil)) .nil)))
                .nil)))
            .nil))
      ∧ optional_params.get "response_format" = Option.none := by
  refine ⟨_, rfl, ?_, ?_, ?_, ?_⟩ <;> decide

/-- C8: `map_openai_params` sets `fake_stream` to `True` whenever a non-`None`
`response_format` parameter is present (for Groq no model supports streaming
a structured response format, so the flag depends on presence alone), and
leaves the flag unset when no `response_format` parameter is present. -/
theorem map_openai_params_fake_stream_flag :
    ∀ (non_default_params optional_params : PyDict) (model : String)
      (drop_params : Bool),
      non_default_params.get "fake_stream" = Option.none →
      ((∀ v, non_default_params.get "response_format" = some v →
          v ≠ PyVal.none →
          ∀ out, GroqChatConfig.map_openai_params non_default_params
              optional_params model drop_params = .ok out →
            out.1.get "fake_stream" = some (.bool true))
       ∧ (non_default_params.get "response_format" = Option.none →
          optional_params.get "fake_stream" = Option.none →
          ∀ out, GroqChatConfig.map_openai_params non_default_params
              optional_params model drop_params = .ok out →
            out.1.get "fake_stream" = Option.none)) := by
  intro ndp op model dp hfs
  constructor
  · intro v hv hvne out hout
    have hgv : ndp.getv "response_format" = v := by simp [PyDict.getv, hv]
    have hsf : GroqChatConfig._should_fake_stream ndp = true := by
      simp [GroqChatConfig._should_fake_stream, hgv, bne_iff_ne, hvne]
    have hop₁ : (op.set "fake_stream" (.bool true)).get "fake_stream" =
        some (.bool true) := PyDict.get_set_self op _ _
    cases v with
    | none => exact absurd rfl hvne
    | dictv rf =>
      rw [GroqChatConfig.map_openai_params] at hout
      rw [hgv, hsf] at hout
      simp only [if_true] at hout
      cases hE : GroqChatConfig.extractJsonSchema rf with
      | error e => rw [hE] at hout; simp only [] at hout; cases hout
      | ok js =>
        rw [hE] at hout
        simp only [] at hout
        by_cases hjs : js ≠ PyVal.none
        · rw [if_pos hjs] at hout
          cases hout
          have hnd₂ : (ndp.erase "response_format").get "fake_stream" =
              Option.none := by
            rw [PyDict.get_erase_ne _ _ _ (by decide)]; exact hfs
          rw [GroqChatConfig.base_map_openai_params,
            PyDict.get_foldl_set_of_get_none _ _ _ hnd₂]
          rw [PyDict.get_set_ne _ _ _ _ (by decide),
            PyDict.get_set_ne _ _ _ _ (by decide),
            PyDict.get_set_ne _ _ _ _ (by decide)]
          exact hop₁
        · rw [if_neg hjs] at hout
          cases hout
          rw [GroqChatConfig.base_map_openai_params,
            PyDict.get_foldl_set_of_get_none _ _ _ hfs]
          exact hop₁
    | str s =>
      rw [GroqChatConfig.map_openai_params] at hout
      rw [hgv, hsf] at hout
      simp only [if_true] at hout
      cases hout
      rw [GroqChatConfig.base_map_openai_params,
        PyDict.get_foldl_set_of_get_none _ _ _ hfs]
      exact hop₁
    | int n =>
      rw [GroqChatConfig.map_openai_params] at hout
      rw [hgv, hsf] at hout
      simp only [if_true] at hout
      cases hout
      rw [GroqChatConfig.base_map_openai_params,
        PyDict.get_foldl_set_of_get_none _ _ _ hfs]
      exact hop₁
    | bool b =>
      rw [GroqChatConfig.map_openai_params] at hout
      rw [hgv, hsf] at hout
      simp only [if_true] at hout
      cases hout
      rw [GroqChatConfig.base_map_openai_params,
        PyDict.get_foldl_set_of_get_none _ _ _ hfs]
      exact hop₁
    | listv xs =>
      rw [GroqChatConfig.map_openai_params] at hout
      rw [hgv, hsf] at hout
      simp only [if_true] at hout
      cases hout
      rw [GroqChatConfig.base_map_openai_params,
        PyDict.get_foldl_set_of_get_none _ _ _ hfs]
      exact hop₁
    | ref n =>
      rw [GroqChatConfig.map_openai_params] at hout
      rw [hgv, hsf] at hout
      simp only [if_true] at hout
      cases hout
      rw [GroqChatConfig.base_map_openai_params,
        PyDict.get_foldl_set_of_get_none _ _ _ hfs]
      exact hop₁
  · intro hrf hop out hout
    have hgv : ndp.getv "response_format" = PyVal.none := by
      simp [PyDict.getv, hrf]
    have hsf : GroqChatConfig._should_fake_stream ndp = false := by
      simp [GroqChatConfig._should_fake_stream, hgv]
    rw [GroqChatConfig.map_openai_params] at hout
    rw [hgv, hsf] at hout
    simp only [Bool.false_eq_true, if_false] at hout
    cases hout
    rw [GroqChatConfig.base_map_openai_params,
      PyDict.get_foldl_set_of_get_none _ _ _ hfs]
    exact hop

/-- Witness for C8: with `response_format` present (`"json"`) the output
carries `fake_stream = True`; with it absent the flag stays unset. -/
theorem map_openai_params_fake_stream_flag_witness :
    (PyDict.cons "fake_stream" (.bool true)
      (.cons "response_format" (.str "json") .nil)).get "fake_stream" =
      some (.bool true)
    ∧ PyDict.nil.get "fake_stream" = Option.none := by
  constructor
  · exact (map_openai_params_fake_stream_flag
      (.cons "response_format" (.str "json") .nil) .nil
      "llama-3.3-70b-versatile" false (by decide)).1
      (.str "json") (by decide) (by decide)
      (.cons "fake_stream" (.bool true)
        (.cons "response_format" (.str "json") .nil),
       .cons "response_format" (.str "json") .nil) rfl
  · exact (map_openai_params_fake_stream_flag .nil .nil
      "llama-3.3-70b-versatile" false rfl).2 rfl rfl (.nil, .nil) rfl

/-- Counterexample for C4: `log_event` mutates its caller-supplied `kwargs`
mapping (it writes `log_event_type` into it), so the claim that none of
these operations mutates a caller-supplied argument is false even for a
callback that raises nothing. -/
theorem components_purity_counterexample :
    (CustomLogger.log_event (fun _ _ _ _ => .ok ()) PyDict.nil PyVal.none
      PyVal.none PyVal.none).kwargs ≠ PyDict.nil := by decide

/-- C4 (amended): the operations are pure functions of their arguments
except for three caller-visible writes — `log_event`/`async_log_event` set
`kwargs["log_event_type"] = "post_api_call"` in the caller's mapping,
`map_openai_params` pops `response_format` from the caller's
`non_default_params` when a JSON schema is handled (and otherwise leaves it
unchanged), and `GroqChatConfig.__init__` stores each non-`None` argument in
class-level state shared by all instances (a `None` argument leaves the
class slot, including a previous instance's write, in place). -/
theorem components_mutations_characterized :
    (∀ (callback_func : PyDict → PyVal → PyVal → PyVal → Except String Unit)
      (kwargs : PyDict) (response_obj start_time end_time : PyVal),
      (CustomLogger.log_event callback_func kwargs response_obj start_time
        end_time).kwargs = kwargs.set "log_event_type" (.str "post_api_call"))
    ∧ (∀ (callback_func : PyDict → PyVal → PyVal → PyVal → Except String Unit)
      (kwargs : PyDict) (response_obj start_time end_time : PyVal),
      (CustomLogger.async_log_event callback_func kwargs response_obj
        start_time end_time).kwargs =
        kwargs.set "log_event_type" (.str "post_api_call"))
    ∧ (∀ (non_default_params optional_params : PyDict) (model : String)
        (drop_params : Bool) (out : PyDict × PyDict),
        GroqChatConfig.map_openai_params non_default_params optional_params
          model drop_params = .ok out →
        out.2 = non_default_params
        ∨ out.2 = non_default_params.erase "response_format")
    ∧ (∀ (cls args : GroqChatConfig.ClassState),
        GroqChatConfig.init cls args = {
          frequency_penalty :=
            GroqChatConfig.updAttr args.frequency_penalty cls.frequency_penalty
          function_call :=
            GroqChatConfig.updAttr args.function_call cls.function_call
          functions := GroqChatConfig.updAttr args.functions cls.functions
          logit_bias := GroqChatConfig.updAttr args.logit_bias cls.logit_bias
          max_tokens := GroqChatConfig.updAttr args.max_tokens cls.max_tokens
          n := GroqChatConfig.updAttr args.n cls.n
          presence_penalty :=
            GroqChatConfig.updAttr args.presence_penalty cls.presence_penalty
          stop := GroqChatConfig.updAttr args.stop cls.stop
          temperature :=
            GroqChatConfig.updAttr args.temperature cls.temperature
          top_p := GroqChatConfig.updAttr args.top_p cls.top_p
          response_format :=
            GroqChatConfig.updAttr args.response_format cls.response_format
          tools := GroqChatConfig.updAttr args.tools cls.tools
          tool_choice :=
            GroqChatConfig.updAttr args.tool_choice cls.tool_choice }) := by
  refine ⟨?_, ?_, ?_, fun _ _ => rfl⟩
  · intro cb kwargs r s t
    cases hcb : cb (kwargs.set "log_event_type" (.str "post_api_call")) r s t <;>
      simp [CustomLogger.log_event, hcb]
  · intro cb kwargs r s t
    cases hcb : cb (kwargs.set "log_event_type" (.str "post_api_call")) r s t <;>
      simp [CustomLogger.async_log_event, hcb]
  · intro ndp op model dp out hout
    rw [GroqChatConfig.map_openai_params] at hout
    cases hgv : ndp.getv "response_format" with
    | dictv rf =>
      rw [hgv] at hout
      simp only [] at hout
      cases hE : GroqChatConfig.extractJsonSchema rf with
      | error e => rw [hE] at hout; simp only [] at hout; cases hout
      | ok js =>
        rw [hE] at hout
        simp only [] at hout
        by_cases hjs : js ≠ PyVal.none
        · rw [if_pos hjs] at hout
          cases hout
          exact Or.inr rfl
        · rw [if_neg hjs] at hout
          cases hout
          exact Or.inl rfl
    | none =>
      rw [hgv] at hout; simp only [] at hout; cases hout; exact Or.inl rfl
    | str s =>
      rw [hgv] at hout; simp only [] at hout; cases hout; exact Or.inl rfl
    | int n =>
      rw [hgv] at hout; simp only [] at hout; cases hout; exact Or.inl rfl
    | bool b =>
      rw [hgv] at hout; simp only [] at hout; cases hout; exact Or.inl rfl
    | listv xs =>
      rw [hgv] at hout; simp only [] at hout; cases hout; exact Or.inl rfl
    | ref r =>
      rw [hgv] at hout; simp only [] at hout; cases hout; exact Or.inl rfl

/-- Witness for C4 (amended): the characterizations at concrete inputs. -/
theorem components_mutations_characterized_witness :
    (CustomLogger.log_event (fun _ _ _ _ => .ok ()) PyDict.nil PyVal.none
      PyVal.none PyVal.none).kwargs =
      PyDict.nil.set "log_event_type" (.str "post_api_call")
    ∧ (PyDict.nil = PyDict.nil
      ∨ PyDict.nil = PyDict.nil.erase "response_format") :=
  ⟨components_mutations_characterized.1 _ PyDict.nil PyVal.none PyVal.none
      PyVal.none,
   components_mutations_characterized.2.2.1 PyDict.nil PyDict.nil
      "llama-3.3-70b-versatile" false (PyDict.nil, PyDict.nil) rfl⟩

/-! ### Store lemmas for the redaction claim -/

theorem storeGet_append_lt (σ l : Store) (a : Nat) (h : a < σ.length) :
    storeGet (σ ++ l) a = storeGet σ a := by
  simp [storeGet, List.getD_eq_getElem?_getD, List.getElem?_append, h]

theorem storeGet_concat_length (σ : Store) (d : PyDict) :
    storeGet (σ ++ [d]) σ.length = d := by
  simp [storeGet, List.getD_eq_getElem?_getD, List.getElem?_concat_length]

theorem storeGet_set_self (σ : Store) (i : Nat) (d : PyDict)
    (h : i < σ.length) : storeGet (σ.set i d) i = d := by
  simp [storeGet, List.getD_eq_getElem?_getD, List.getElem?_set_eq_of_lt d h]

theorem storeGet_set_ne (σ : Store) (i j : Nat) (d : PyDict) (h : i ≠ j) :
    storeGet (σ.set i d) j = storeGet σ j := by
  simp [storeGet, List.getD_eq_getElem?_getD, List.getElem?_set_ne h]

theorem PyDict.getv_set_ne (d : PyDict) (k k' : String) (v : PyVal)
    (h : k' ≠ k) : (d.set k v).getv k' = d.getv k' := by
  simp [PyDict.getv, PyDict.get_set_ne _ _ _ _ h]

theorem storeGet_append2_lt (σ : Store) (x y : PyDict) (a : Nat)
    (h : a < σ.length) : storeGet (σ ++ [x] ++ [y]) a = storeGet σ a := by
  rw [storeGet_append_lt (σ ++ [x]) [y] a (by simp; omega),
    storeGet_append_lt σ [x] a h]

theorem storeGet_append2_mid (σ : Store) (x y : PyDict) :
    storeGet (σ ++ [x] ++ [y]) σ.length = x := by
  rw [storeGet_append_lt (σ ++ [x]) [y] σ.length (by simp),
    storeGet_concat_length]


/-- The absent-nested-payload branch of
`redact_standard_logging_payload_from_model_call_details`: with message
logging turned off but no nested `standard_logging_object`, the call returns
a fresh shallow copy of the top-level mapping with identical content and the
store is only extended. -/
theorem redact_absent_payload_returns_copy :
    ∀ (σ : Store) (model_call_details : Nat),
      (storeGet σ model_call_details).get "standard_logging_object" =
        Option.none →
      CustomLogger.redact_standard_logging_payload_from_model_call_details
          true σ model_call_details =
        some (σ ++ [storeGet σ model_call_details], σ.length) := by
  intro σ r hslo
  rw [CustomLogger.redact_standard_logging_payload_from_model_call_details]
  rw [if_neg (by decide : ¬ (true = false))]
  simp only []
  rw [hslo]

/-- The redacting branch of
`redact_standard_logging_payload_from_model_call_details`: with message
logging turned off and a dict-valued nested `standard_logging_object`, the
call returns a fresh shallow copy of the top level whose
`standard_logging_object` is a fresh shallow copy with `messages` /
`response` replaced by the placeholders when present, while every
pre-existing store object — the original mapping, the original nested
payload, and anything they reference — is byte-for-byte unchanged. -/
theorem redact_turned_off_redacts_fresh_copy :
    ∀ (σ : Store) (r s : Nat),
      r < σ.length → s < σ.length →
      (storeGet σ r).get "standard_logging_object" = some (.ref s) →
      ∃ σ' : Store,
        CustomLogger.redact_standard_logging_payload_from_model_call_details
            true σ r = some (σ', σ.length)
        ∧ (∀ a, a < σ.length → storeGet σ' a = storeGet σ a)
        ∧ (storeGet σ' σ.length).get "standard_logging_object" =
            some (.ref (σ.length + 1))
        ∧ (∀ k, k ≠ "standard_logging_object" →
            (storeGet σ' σ.length).get k = (storeGet σ r).get k)
        ∧ ((storeGet σ' (σ.length + 1)).get "messages" =
            if (storeGet σ s).getv "messages" ≠ PyVal.none then
              some CustomLogger.redactedMessagesValue
            else (storeGet σ s).get "messages")
        ∧ ((storeGet σ' (σ.length + 1)).get "response" =
            if (storeGet σ s).getv "response" ≠ PyVal.none then
              some CustomLogger.redactedResponseValue
            else (storeGet σ s).get "response")
        ∧ (∀ k, k ≠ "messages" → k ≠ "response" →
            (storeGet σ' (σ.length + 1)).get k = (storeGet σ s).get k) := by
  intro σ r s hr hs hslo
  have h2sc : storeGet ((σ ++ [storeGet σ r]) ++ [storeGet σ s])
      (σ ++ [storeGet σ r]).length = storeGet σ s :=
    storeGet_concat_length _ _
  have hsc2 : (σ ++ [storeGet σ r]).length = σ.length + 1 := by simp
  have hlen2 : (σ ++ [storeGet σ r] ++ [storeGet σ s]).length = σ.length + 2 := by
    simp
  have hscltlen : (σ ++ [storeGet σ r]).length <
      (σ ++ [storeGet σ r] ++ [storeGet σ s]).length := by simp
  have hrcnesc : σ.length ≠ (σ ++ [storeGet σ r]).length := by simp
  have hscnerc : (σ ++ [storeGet σ r]).length ≠ σ.length := by simp
  by_cases hm : (storeGet σ s).getv "messages" ≠ PyVal.none
  · by_cases hre : (storeGet σ s).getv "response" ≠ PyVal.none
    · refine ⟨List.set
          (List.set
            (List.set (σ ++ [storeGet σ r] ++ [storeGet σ s])
              (List.length (σ ++ [storeGet σ r]))
              ((storeGet σ s).set "messages" CustomLogger.redactedMessagesValue))
            (List.length (σ ++ [storeGet σ r]))
            (((storeGet σ s).set "messages"
              CustomLogger.redactedMessagesValue).set "response"
              CustomLogger.redactedResponseValue))
          (List.length σ)
          ((storeGet σ r).set "standard_logging_object"
            (PyVal.ref (List.length (σ ++ [storeGet σ r])))),
        ?hA, ?pA1, ?pA2, ?pA3, ?pA4, ?pA5, ?pA6⟩
      case hA =>
        rw [CustomLogger.redact_standard_logging_payload_from_model_call_details]
        rw [if_neg (by decide : ¬ (true = false))]
        simp only []
        rw [hslo]
        simp only [storeSetKey]
        rw [h2sc]
        rw [if_pos hm]
        rw [storeGet_set_self _ _ _ hscltlen]
        rw [PyDict.getv_set_ne _ _ _ _ (by decide)]
        rw [if_pos hre]
        rw [storeGet_set_ne _ _ _ _ hscnerc, storeGet_set_ne _ _ _ _ hscnerc,
          storeGet_append2_mid]
      case pA1 =>
        intro a ha
        have h₁ : σ.length ≠ a := by omega
        have h₂ : (σ ++ [storeGet σ r]).length ≠ a := by rw [hsc2]; omega
        rw [storeGet_set_ne _ _ _ _ h₁, storeGet_set_ne _ _ _ _ h₂,
          storeGet_set_ne _ _ _ _ h₂, storeGet_append2_lt _ _ _ _ ha]
      case pA2 =>
        rw [storeGet_set_self _ _ _ (by simp), PyDict.get_set_self, hsc2]
      case pA3 =>
        intro k hk
        rw [storeGet_set_self _ _ _ (by simp), PyDict.get_set_ne _ _ _ _ hk]
      case pA4 =>
        rw [← hsc2, storeGet_set_ne _ _ _ _ hrcnesc,
          storeGet_set_self _ _ _ (by simp),
          PyDict.get_set_ne _ _ _ _ (by decide), PyDict.get_set_self,
          if_pos hm]
      case pA5 =>
        rw [← hsc2, storeGet_set_ne _ _ _ _ hrcnesc,
          storeGet_set_self _ _ _ (by simp),
          PyDict.get_set_self, if_pos hre]
      case pA6 =>
        intro k hk1 hk2
        rw [← hsc2, storeGet_set_ne _ _ _ _ hrcnesc,
          storeGet_set_self _ _ _ (by simp),
          PyDict.get_set_ne _ _ _ _ hk2, PyDict.get_set_ne _ _ _ _ hk1]
    · refine ⟨List.set
          (List.set (σ ++ [storeGet σ r] ++ [storeGet σ s])
            (List.length (σ ++ [storeGet σ r]))
            ((storeGet σ s).set "messages" CustomLogger.redactedMessagesValue))
          (List.length σ)
          ((storeGet σ r).set "standard_logging_object"
            (PyVal.ref (List.length (σ ++ [storeGet σ r])))),
        ?hB, ?pB1, ?pB2, ?pB3, ?pB4, ?pB5, ?pB6⟩
      case hB =>
        rw [CustomLogger.redact_standard_logging_payload_from_model_call_details]
        rw [if_neg (by decide : ¬ (true = false))]
        simp only []
        rw [hslo]
        simp only [storeSetKey]
        rw [h2sc]
        rw [if_pos hm]
        rw [storeGet_set_self _ _ _ hscltlen]
        rw [PyDict.getv_set_ne _ _ _ _ (by decide)]
        rw [if_neg hre]
        rw [storeGet_set_ne _ _ _ _ hscnerc, storeGet_append2_mid]
      case pB1 =>
        intro a ha
        have h₁ : σ.length ≠ a := by omega
        have h₂ : (σ ++ [storeGet σ r]).length ≠ a := by rw [hsc2]; omega
        rw [storeGet_set_ne _ _ _ _ h₁, storeGet_set_ne _ _ _ _ h₂,
          storeGet_append2_lt _ _ _ _ ha]
      case pB2 =>
        rw [storeGet_set_self _ _ _ (by simp), PyDict.get_set_self, hsc2]
      case pB3 =>
        intro k hk
        rw [storeGet_set_self _ _ _ (by simp), PyDict.get_set_ne _ _ _ _ hk]
      case pB4 =>
        rw [← hsc2, storeGet_set_ne _ _ _ _ hrcnesc,
          storeGet_set_self _ _ _ (by simp),
          PyDict.get_set_self, if_pos hm]
      case pB5 =>
        rw [← hsc2, storeGet_set_ne _ _ _ _ hrcnesc,
          storeGet_set_self _ _ _ (by simp),
          PyDict.get_set_ne _ _ _ _ (by decide), if_neg hre]
      case pB6 =>
        intro k hk1 hk2
        rw [← hsc2, storeGet_set_ne _ _ _ _ hrcnesc,
          storeGet_set_self _ _ _ (by simp),
          PyDict.get_set_ne _ _ _ _ hk1]
  · by_cases hre : (storeGet σ s).getv "response" ≠ PyVal.none
    · refine ⟨List.set
          (List.set (σ ++ [storeGet σ r] ++ [storeGet σ s])
            (List.length (σ ++ [storeGet σ r]))
            ((storeGet σ s).set "response" CustomLogger.redactedResponseValue))
          (List.length σ)
          ((storeGet σ r).set "standard_logging_object"
            (PyVal.ref (List.length (σ ++ [storeGet σ r])))),
        ?hC, ?pC1, ?pC2, ?pC3, ?pC4, ?pC5, ?pC6⟩
      case hC =>
        rw [CustomLogger.redact_standard_logging_payload_from_model_call_details]
        rw [if_neg (by decide : ¬ (true = false))]
        simp only []
        rw [hslo]
        simp only [storeSetKey]
        rw [h2sc]
        rw [if_neg hm]
        rw [h2sc]
        rw [if_pos hre]
        rw [storeGet_set_ne _ _ _ _ hscnerc, storeGet_append2_mid]
      case pC1 =>
        intro a ha
        have h₁ : σ.length ≠ a := by omega
        have h₂ : (σ ++ [storeGet σ r]).length ≠ a := by rw [hsc2]; omega
        rw [storeGet_set_ne _ _ _ _ h₁, storeGet_set_ne _ _ _ _ h₂,
          storeGet_append2_lt _ _ _ _ ha]
      case pC2 =>
        rw [storeGet_set_self _ _ _ (by simp), PyDict.get_set_self, hsc2]
      case pC3 =>
        intro k hk
        rw [storeGet_set_self _ _ _ (by simp), PyDict.get_set_ne _ _ _ _ hk]
      case pC4 =>
        rw [← hsc2, storeGet_set_ne _ _ _ _ hrcnesc,
          storeGet_set_self _ _ _ (by simp),
          PyDict.get_set_ne _ _ _ _ (by decide), if_neg hm]
      case pC5 =>
        rw [← hsc2, storeGet_set_ne _ _ _ _ hrcnesc,
          storeGet_set_self _ _ _ (by simp),
          PyDict.get_set_self, if_pos hre]
      case pC6 =>
        intro k hk1 hk2
        rw [← hsc2, storeGet_set_ne _ _ _ _ hrcnesc,
          storeGet_set_self _ _ _ (by simp),
          PyDict.get_set_ne _ _ _ _ hk2]
    · refine ⟨List.set (σ ++ [storeGet σ r] ++ [storeGet σ s])
          (List.length σ)
          ((storeGet σ r).set "standard_logging_object"
            (PyVal.ref (List.length (σ ++ [storeGet σ r])))),
        ?hD, ?pD1, ?pD2, ?pD3, ?pD4, ?pD5, ?pD6⟩
      case hD =>
        rw [CustomLogger.redact_standard_logging_payload_from_model_call_details]
        rw [if_neg (by decide : ¬ (true = false))]
        simp only []
        rw [hslo]
        simp only [storeSetKey]
        rw [h2sc]
        rw [if_neg hm]
        rw [h2sc]
        rw [if_neg hre]
        rw [storeGet_append2_mid]
      case pD1 =>
        intro a ha
        have h₁ : σ.length ≠ a := by omega
        rw [storeGet_set_ne _ _ _ _ h₁, storeGet_append2_lt _ _ _ _ ha]
      case pD2 =>
        rw [storeGet_set_self _ _ _ (by simp), PyDict.get_set_self, hsc2]
      case pD3 =>
        intro k hk
        rw [storeGet_set_self _ _ _ (by simp), PyDict.get_set_ne _ _ _ _ hk]
      case pD4 =>
        rw [← hsc2, storeGet_set_ne _ _ _ _ hrcnesc, h2sc, if_neg hm]
      case pD5 =>
        rw [← hsc2, storeGet_set_ne _ _ _ _ hrcnesc, h2sc, if_neg hre]
      case pD6 =>
        intro k hk1 hk2
        rw [← hsc2, storeGet_set_ne _ _ _ _ hrcnesc, h2sc]

/-- C2: `redact_standard_logging_payload_from_model_call_details` is the
identity when `turn_off_message_logging` is `False`; when `True` it returns
a fresh shallow copy whose nested `standard_logging_object` copy has any
present `messages` / `response` replaced by the fixed placeholder
structures, while the original top-level mapping, its original nested
`standard_logging_object`, and everything they reference are unmodified;
when the nested payload is absent the result is the shallow-copied top
level unchanged. -/
theorem redact_standard_logging_payload_spec :
    (∀ (σ : Store) (model_call_details : Nat),
      CustomLogger.redact_standard_logging_payload_from_model_call_details
          false σ model_call_details = some (σ, model_call_details))
    ∧ (∀ (σ : Store) (model_call_details : Nat),
        (storeGet σ model_call_details).get "standard_logging_object" =
          Option.none →
        CustomLogger.redact_standard_logging_payload_from_model_call_details
            true σ model_call_details =
          some (σ ++ [storeGet σ model_call_details], σ.length))
    ∧ (∀ (σ : Store) (r s : Nat),
        r < σ.length → s < σ.length →
        (storeGet σ r).get "standard_logging_object" = some (.ref s) →
        ∃ σ' : Store,
          CustomLogger.redact_standard_logging_payload_from_model_call_details
              true σ r = some (σ', σ.length)
          ∧ (∀ a, a < σ.length → storeGet σ' a = storeGet σ a)
          ∧ (storeGet σ' σ.length).get "standard_logging_object" =
              some (.ref (σ.length + 1))
          ∧ (∀ k, k ≠ "standard_logging_object" →
              (storeGet σ' σ.length).get k = (storeGet σ r).get k)
          ∧ ((storeGet σ' (σ.length + 1)).get "messages" =
              if (storeGet σ s).getv "messages" ≠ PyVal.none then
                some CustomLogger.redactedMessagesValue
              else (storeGet σ s).get "messages")
          ∧ ((storeGet σ' (σ.length + 1)).get "response" =
              if (storeGet σ s).getv "response" ≠ PyVal.none then
                some CustomLogger.redactedResponseValue
              else (storeGet σ s).get "response")
          ∧ (∀ k, k ≠ "messages" → k ≠ "response" →
              (storeGet σ' (σ.length + 1)).get k = (storeGet σ s).get k)) := by
  refine ⟨?_, redact_absent_payload_returns_copy,
    redact_turned_off_redacts_fresh_copy⟩
  intro σ r
  rw [CustomLogger.redact_standard_logging_payload_from_model_call_details]
  rw [if_pos rfl]

/-- Witness for C2: a two-object store whose top level references a nested
payload with non-`None` `messages`; redaction succeeds and the fresh nested
copy carries the placeholder messages. -/
theorem redact_standard_logging_payload_spec_witness :
    ∃ σ' : Store,
      CustomLogger.redact_standard_logging_payload_from_model_call_details
          true
          [.cons "standard_logging_object" (.ref 1)
            (.cons "model" (.str "llama-3.3-70b-versatile") .nil),
           .cons "messages" (.listv (.cons (.dictv (.cons "role" (.str "user")
            (.cons "content" (.str "hello") .nil))) .nil))
            (.cons "response" (.dictv (.cons "id" (.str "resp-1") .nil)) .nil)]
          0 =
        some (σ', 2)
      ∧ (storeGet σ' 3).get "messages" =
          some CustomLogger.redactedMessagesValue := by
  obtain ⟨σ', h1, _, _, _, h5, _, _⟩ :=
    redact_standard_logging_payload_spec.2.2
      [.cons "standard_logging_object" (.ref 1)
        (.cons "model" (.str "llama-3.3-70b-versatile") .nil),
       .cons "messages" (.listv (.cons (.dictv (.cons "role" (.str "user")
        (.cons "content" (.str "hello") .nil))) .nil))
        (.cons "response" (.dictv (.cons "id" (.str "resp-1") .nil)) .nil)]
      0 1 (by decide) (by decide) (by decide)
  rw [if_pos (by decide)] at h5
  exact ⟨σ', h1, h5⟩
